import Mathlib

/-!
Verification development for a two-script data pipeline:
an ingestor (insert_data.py) that bulk-loads CSV rows into an SQLite store
with INSERT OR IGNORE semantics, and a report materializer
(run_report_to_db.py) that drops and recreates a snapshot table
report_output from a SQL query.

The store is embedded shallowly: each of the five base tables is a list of
(rowid, payload) pairs; the derived table report_output is an optional list
of result rows.  SQLite behaviours the scripts rely on are modelled
explicitly: INTEGER PRIMARY KEY rowid assignment (NULL id auto-assigns
one more than the largest rowid in use), OR IGNORE skipping of
uniqueness / NOT NULL conflicts, immediate FOREIGN KEY enforcement
(not suppressed by OR IGNORE), and autocommit execution of the DDL
statements in the materializer.  A computation that raises a Python
exception is modelled as Except.error; since the loader commits only
after a successful executemany and a close without commit rolls back,
an error result leaves the persisted store unchanged, which the
embedding expresses by returning no store on the error path.
Observable side effects (connection open and close, the two DDL steps,
printed lines) are recorded in an event trace.
-/

set_option autoImplicit false

/-- Python exception values that the two scripts can raise:
ValueError (bad int()/float() literal, unknown table name),
sqlite3.OperationalError (e.g. a missing table in a query) and
sqlite3.IntegrityError (foreign-key violations). -/
inductive PyErr where
  | valueError : String → PyErr
  | operationalError : String → PyErr
  | integrityError : String → PyErr
deriving DecidableEq, Repr

/-- Observable events of a run: connection acquire and release, the
materializer's two DDL steps, and printed output lines. -/
inductive Ev where
  | connect : Ev
  | close : Ev
  | drop : Ev
  | create : Ev
  | print : String → Ev
deriving DecidableEq, Repr

/-- Value of a string of decimal digits (0 on the empty list). -/
def natOfDigits : List Char → Nat
  | [] => 0
  | c :: cs => natOfDigits cs + c.toNat % 48 * 10 ^ cs.length

/-- Python str.strip on a character list: surrounding whitespace
removed. -/
def charStrip (l : List Char) : List Char :=
  ((l.dropWhile Char.isWhitespace).reverse.dropWhile Char.isWhitespace).reverse

/-- Nonempty all-digit character list parsed as a natural number. -/
def digitsToNat (l : List Char) : Option Nat :=
  if l = [] then none
  else if l.all Char.isDigit then some (natOfDigits l) else none

/-- Model of Python int(s) on the string inputs this pipeline meets:
optional surrounding whitespace, optional sign, then decimal digits. -/
def parseInt (s : String) : Option Int :=
  match charStrip s.toList with
  | '+' :: rest => (digitsToNat rest).map Int.ofNat
  | '-' :: rest => (digitsToNat rest).map (fun n => -(n : Int))
  | l => (digitsToNat l).map Int.ofNat

/-- Plain decimal numeral (digits with at most one point, not a lone
point), as an exact rational. -/
def parseDecimal (l : List Char) : Option Rat :=
  if l.contains '.' then
    let ip := l.takeWhile (fun c => c ≠ '.')
    let fp := (l.dropWhile (fun c => c ≠ '.')).drop 1
    if fp.contains '.' then none
    else if ip = [] ∧ fp = [] then none
    else if ip.all Char.isDigit ∧ fp.all Char.isDigit then
      some ((natOfDigits ip : Rat) + (natOfDigits fp : Rat) / (10 : Rat) ^ fp.length)
    else none
  else (digitsToNat l).map (fun n => (n : Rat))

/-- Model of Python float(s) on the plain decimal inputs this pipeline
meets, with the value kept exact as a rational. -/
def parseFloat (s : String) : Option Rat :=
  match charStrip s.toList with
  | '+' :: rest => parseDecimal rest
  | '-' :: rest => (parseDecimal rest).map Neg.neg
  | l => parseDecimal l

/-- insert_data.to_int: None and the empty string coerce to null,
anything else is parsed as an integer, raising ValueError on failure. -/
def to_int (v : Option String) : Except PyErr (Option Int) :=
  match v with
  | none => .ok none
  | some s =>
    if s = "" then .ok none
    else
      match parseInt s with
      | some n => .ok (some n)
      | none => .error (.valueError ("invalid literal for int() with base 10: " ++ s))

/-- insert_data.to_float: None and the empty string coerce to null,
anything else is parsed as a decimal, raising ValueError on failure. -/
def to_float (v : Option String) : Except PyErr (Option Rat) :=
  match v with
  | none => .ok none
  | some s =>
    if s = "" then .ok none
    else
      match parseFloat s with
      | some q => .ok (some q)
      | none => .error (.valueError ("could not convert string to float: " ++ s))

/-- One CSV record as produced by csv.DictReader: header name to cell. -/
abbrev Row : Type := List (String × String)

/-- Row.get of DictReader: first cell under the given header, if any. -/
def rget (r : Row) (k : String) : Option String :=
  (r.find? (fun p => p.1 == k)).map Prod.snd

/-- The readable files: path to parsed CSV records, none when absent. -/
abbrev Filesystem : Type := String → Option (List Row)

/-- One row of a materialized query result (column values, null allowed). -/
abbrev RRow : Type := List (Option String)

/-- categories payload (the rowid ID is kept separately). -/
structure CatData where
  category_name : Option String
  parent_category_id : Option Int
deriving DecidableEq, Repr

/-- products payload. -/
structure ProdData where
  name : Option String
  category : Option Int
  price : Option Rat
  stock_quantity : Option Int
deriving DecidableEq, Repr

/-- customers payload. -/
structure CustData where
  name : Option String
  email : Option String
  registration_date : Option String
deriving DecidableEq, Repr

/-- orders payload. -/
structure OrdData where
  customer_id : Option Int
  product_id : Option Int
  order_date : Option String
  quantity : Option Int
  total_price : Option Rat
deriving DecidableEq, Repr

/-- reviews payload. -/
structure RevData where
  product_id : Option Int
  customer_id : Option Int
  rating : Option Int
  review_text : Option String
  review_date : Option String
deriving DecidableEq, Repr

/-- One prepared parameter tuple of insert_csv, per target table. -/
inductive InsRow where
  | cat : Option Int → CatData → InsRow
  | prodR : Option Int → ProdData → InsRow
  | cust : Option Int → CustData → InsRow
  | ordR : Option Int → OrdData → InsRow
  | revR : Option Int → RevData → InsRow
deriving DecidableEq, Repr

/-- The ID parameter of a prepared tuple. -/
def idOf : InsRow → Option Int
  | .cat i _ => i
  | .prodR i _ => i
  | .cust i _ => i
  | .ordR i _ => i
  | .revR i _ => i

/-- The persisted store ecom.db: the five base tables as lists of
(rowid, payload) pairs, plus the derived report_output table when it
exists. -/
structure DB where
  categories : List (Int × CatData)
  products : List (Int × ProdData)
  customers : List (Int × CustData)
  orders : List (Int × OrdData)
  reviews : List (Int × RevData)
  report_output : Option (List RRow)
deriving DecidableEq, Repr

/-- A store holding the freshly created empty schema. -/
def emptyDB : DB := ⟨[], [], [], [], [], none⟩

/-- SELECT COUNT(*) FROM table: row count, or OperationalError when no
table of that name exists. -/
def rowCount (db : DB) (table : String) : Except PyErr Nat :=
  if table = "categories" then .ok db.categories.length
  else if table = "products" then .ok db.products.length
  else if table = "customers" then .ok db.customers.length
  else if table = "orders" then .ok db.orders.length
  else if table = "reviews" then .ok db.reviews.length
  else if table = "report_output" then
    match db.report_output with
    | some rs => .ok rs.length
    | none => .error (.operationalError ("no such table: " ++ table))
  else .error (.operationalError ("no such table: " ++ table))

/-- The rowids in use in a table. -/
def idsOf {α : Type} (tbl : List (Int × α)) : List Int :=
  tbl.map Prod.fst

/-- SQLite rowid auto-assignment for an INTEGER PRIMARY KEY given NULL:
one more than the largest rowid in use, 1 on an empty table. -/
def nextId {α : Type} (tbl : List (Int × α)) : Int :=
  match idsOf tbl with
  | [] => 1
  | i :: is => is.foldl max i + 1

/-- A nullable foreign-key value satisfies its constraint: NULL always
passes, a value must be a rowid in use in the referenced table. -/
def hasId {α : Type} (tbl : List (Int × α)) (k : Option Int) : Bool :=
  match k with
  | none => true
  | some i => (idsOf tbl).contains i

/-- INSERT OR IGNORE of one row into one table: a duplicate rowid or a
NOT NULL violation skips the row silently; a foreign-key violation
(checked on the table as it would be after the insert, so a
self-reference is allowed) raises IntegrityError; otherwise the row is
appended, with a NULL id auto-assigned. -/
def insertRow {α : Type} (tbl : List (Int × α)) (idv : Option Int) (pay : α)
    (notNullOk : Bool) (fkOk : List (Int × α) → Bool) :
    Except PyErr (List (Int × α)) :=
  match idv with
  | some k =>
    if (idsOf tbl).contains k then .ok tbl
    else if notNullOk = false then .ok tbl
    else if fkOk (tbl ++ [(k, pay)]) = false then
      .error (.integrityError "FOREIGN KEY constraint failed")
    else .ok (tbl ++ [(k, pay)])
  | none =>
    if notNullOk = false then .ok tbl
    else
      let k := nextId tbl
      if fkOk (tbl ++ [(k, pay)]) = false then
        .error (.integrityError "FOREIGN KEY constraint failed")
      else .ok (tbl ++ [(k, pay)])

/-- Execution of one prepared INSERT OR IGNORE statement against the
store, with each table's NOT NULL and FOREIGN KEY constraints from
create_tables. -/
def insertOne (db : DB) : InsRow → Except PyErr DB
  | .cat i d =>
    match insertRow db.categories i d d.category_name.isSome
        (fun t => hasId t d.parent_category_id) with
    | .error e => .error e
    | .ok t => .ok { db with categories := t }
  | .prodR i d =>
    match insertRow db.products i d d.name.isSome
        (fun _ => hasId db.categories d.category) with
    | .error e => .error e
    | .ok t => .ok { db with products := t }
  | .cust i d =>
    match insertRow db.customers i d d.name.isSome (fun _ => true) with
    | .error e => .error e
    | .ok t => .ok { db with customers := t }
  | .ordR i d =>
    match insertRow db.orders i d true
        (fun _ => hasId db.customers d.customer_id && hasId db.products d.product_id) with
    | .error e => .error e
    | .ok t => .ok { db with orders := t }
  | .revR i d =>
    match insertRow db.reviews i d true
        (fun _ => hasId db.products d.product_id && hasId db.customers d.customer_id) with
    | .error e => .error e
    | .ok t => .ok { db with reviews := t }

/-- cur.executemany: the prepared tuples are inserted in order; the
first failure aborts the rest. -/
def executemany (db : DB) : List InsRow → Except PyErr DB
  | [] => .ok db
  | p :: ps =>
    match insertOne db p with
    | .error e => .error e
    | .ok db1 => executemany db1 ps

/-- Parameter tuple built from one categories CSV record, conversions
in source order. -/
def buildCat (r : Row) : Except PyErr InsRow :=
  match to_int (rget r "parent_category_id") with
  | .error e => .error e
  | .ok pid =>
    match to_int (rget r "ID") with
    | .error e => .error e
    | .ok i => .ok (.cat i ⟨rget r "category_name", pid⟩)

/-- Parameter tuple built from one products CSV record. -/
def buildProd (r : Row) : Except PyErr InsRow :=
  match to_int (rget r "ID") with
  | .error e => .error e
  | .ok i =>
    match to_int (rget r "category") with
    | .error e => .error e
    | .ok c =>
      match to_float (rget r "price") with
      | .error e => .error e
      | .ok pr =>
        match to_int (rget r "stock_quantity") with
        | .error e => .error e
        | .ok sq => .ok (.prodR i ⟨rget r "name", c, pr, sq⟩)

/-- Parameter tuple built from one customers CSV record. -/
def buildCust (r : Row) : Except PyErr InsRow :=
  match to_int (rget r "ID") with
  | .error e => .error e
  | .ok i => .ok (.cust i ⟨rget r "name", rget r "email", rget r "registration_date"⟩)

/-- Parameter tuple built from one orders CSV record. -/
def buildOrd (r : Row) : Except PyErr InsRow :=
  match to_int (rget r "ID") with
  | .error e => .error e
  | .ok i =>
    match to_int (rget r "customer_id") with
    | .error e => .error e
    | .ok cid =>
      match to_int (rget r "product_id") with
      | .error e => .error e
      | .ok pid =>
        match to_int (rget r "quantity") with
        | .error e => .error e
        | .ok qt =>
          match to_float (rget r "total_price") with
          | .error e => .error e
          | .ok tp => .ok (.ordR i ⟨cid, pid, rget r "order_date", qt, tp⟩)

/-- Parameter tuple built from one reviews CSV record. -/
def buildRev (r : Row) : Except PyErr InsRow :=
  match to_int (rget r "ID") with
  | .error e => .error e
  | .ok i =>
    match to_int (rget r "product_id") with
    | .error e => .error e
    | .ok pid =>
      match to_int (rget r "customer_id") with
      | .error e => .error e
      | .ok cid =>
        match to_int (rget r "rating") with
        | .error e => .error e
        | .ok rt => .ok (.revR i ⟨pid, cid, rt, rget r "review_text", rget r "review_date"⟩)

/-- The params-building for loop of insert_csv: one tuple per record,
the first conversion error aborting the batch before any insert. -/
def buildList (f : Row → Except PyErr InsRow) : List Row → Except PyErr (List InsRow)
  | [] => .ok []
  | r :: rs =>
    match f r with
    | .error e => .error e
    | .ok p =>
      match buildList f rs with
      | .error e => .error e
      | .ok ps => .ok (p :: ps)

/-- The per-table dispatch of insert_csv: chooses the prepared statement
and conversions, raising ValueError on a table outside the five
entities. -/
def buildParams (table : String) (rows : List Row) : Except PyErr (List InsRow) :=
  if table = "categories" then buildList buildCat rows
  else if table = "products" then buildList buildProd rows
  else if table = "customers" then buildList buildCust rows
  else if table = "orders" then buildList buildOrd rows
  else if table = "reviews" then buildList buildRev rows
  else .error (.valueError ("Unknown table " ++ table))

/-- insert_data.insert_csv: count the table, return 0 with a warning
when the source file is absent, otherwise build all parameter tuples,
run executemany and commit, and report the row-count delta.  An error
result models a raised exception, after which the uncommitted batch is
rolled back, so the persisted store is the input store. -/
def insert_csv (fs : Filesystem) (db : DB) (table : String) (filePath : String) :
    Except PyErr (Int × DB × List Ev) :=
  match rowCount db table with
  | .error e => .error e
  | .ok before =>
    match fs filePath with
    | none =>
      .ok (0, db, [Ev.print ("Warning: " ++ filePath ++ " not found, skipping " ++ table ++ ".")])
    | some rows =>
      match buildParams table rows with
      | .error e => .error e
      | .ok params =>
        match executemany db params with
        | .error e => .error e
        | .ok db1 =>
          match rowCount db1 table with
          | .error e => .error e
          | .ok after => .ok ((after : Int) - (before : Int), db1, [])

/-- insert_data.DATA_FILES: entity table name to CSV file name. -/
def DATA_FILES : List (String × String) :=
  [("categories", "categories.csv"), ("products", "products.csv"),
   ("customers", "customers.csv"), ("orders", "orders.csv"),
   ("reviews", "reviews.csv")]

/-- dict.get on a small association list. -/
def dictGet (d : List (String × String)) (k : String) : Option String :=
  (d.find? (fun p => p.1 == k)).map Prod.snd

/-- The fixed foreign-key dependency order of insert_data.main. -/
def insertionOrder : List String :=
  ["categories", "products", "customers", "orders", "reviews"]

/-- insert_data.create_tables: CREATE TABLE IF NOT EXISTS for the five
tables.  The embedded store always carries the five-table schema, so on
it the call is the identity. -/
def create_tables (db : DB) : DB := db

namespace InsertData

/-- The per-entity loop of insert_data.main: results in order, the store
threaded through, warnings collected; an error aborts the remaining
entities while the already committed ones persist. -/
def loaderLoop (fs : Filesystem) : List String → DB →
    Except PyErr (List (String × Int)) × DB × List Ev
  | [], db => (.ok [], db, [])
  | t :: ts, db =>
    match dictGet DATA_FILES t with
    | none => (.error (.valueError ("TypeError: argument should be a str, not NoneType")), db, [])
    | some fn =>
      match insert_csv fs db t fn with
      | .error e => (.error e, db, [])
      | .ok (n, db1, evs) =>
        match loaderLoop fs ts db1 with
        | (r, db2, evs2) => (r.map (fun res => (t, n) :: res), db2, evs ++ evs2)

/-- insert_data.main: connect, create tables, ingest the five entities
in dependency order, print the summary, and close the connection in a
finally block on success and error paths alike. -/
def main (fs : Filesystem) (db : DB) :
    Except PyErr (List (String × Int)) × DB × List Ev :=
  match loaderLoop fs insertionOrder (create_tables db) with
  | (.error e, db1, evs) => (.error e, db1, [Ev.connect] ++ evs ++ [Ev.close])
  | (.ok res, db1, evs) =>
    (.ok res, db1,
      [Ev.connect] ++ evs ++ [Ev.print "Insertion summary:"] ++
        res.map (fun p => Ev.print ("- " ++ p.1 ++ ": " ++ toString p.2 ++ " rows inserted")) ++
        [Ev.close])

end InsertData

/-- Python str.strip: surrounding whitespace removed. -/
def pyStrip (s : String) : String :=
  String.mk (charStrip s.toList)

/-- run_report_to_db: the query text read from report.sql, stripped,
with one trailing semicolon removed if present. -/
def sqlTextOf (raw : String) : String :=
  let t := pyStrip raw
  match t.toList.getLast? with
  | some c => if c = ';' then String.mk t.toList.dropLast else t
  | none => t

namespace RunReport

/-- run_report_to_db.main: early-exit with a message when the store file
or report.sql is absent; otherwise connect and, in a try/finally that
closes the connection, drop report_output (DDL, autocommitted), create
report_output as the query result — the query's semantics, which this
script delegates to SQLite, is the parameter evalQ, whose error result
models a failing CREATE ... AS — then count and report the new rows. -/
def main (dbExists : Bool) (sqlFile : Option String)
    (evalQ : String → DB → Except PyErr (List RRow)) (db : DB) :
    Except PyErr Unit × DB × List Ev :=
  if dbExists = false then
    (.ok (), db, [Ev.print "Database not found: ecom.db"])
  else
    match sqlFile with
    | none => (.ok (), db, [Ev.print "SQL file not found: report.sql"])
    | some raw =>
      let sql_text := sqlTextOf raw
      let db1 : DB := { db with report_output := none }
      match evalQ sql_text db1 with
      | .error e => (.error e, db1, [Ev.connect, Ev.drop, Ev.create, Ev.close])
      | .ok rs =>
        let db2 : DB := { db1 with report_output := some rs }
        match rowCount db2 "report_output" with
        | .error e => (.error e, db2, [Ev.connect, Ev.drop, Ev.create, Ev.close])
        | .ok cnt =>
          (.ok (), db2,
            [Ev.connect, Ev.drop, Ev.create,
             Ev.print ("Inserted " ++ toString cnt ++ " rows into report_output"), Ev.close])

end RunReport

/-! ### Definitions supporting the claims -/

/-- The record carries an ID cell that coerces to a non-null integer or
fails; it is false exactly when the ID field is absent or empty, the
case in which SQLite auto-assigns a fresh rowid. -/
def hasExplicitId (r : Row) : Bool :=
  match to_int (rget r "ID") with
  | .ok none => false
  | _ => true

/-- A cell value that is non-empty and non-numeric for its field kind
(true = integer field, false = decimal field). -/
def badVal (v : Option String) (isIntField : Bool) : Bool :=
  match v with
  | none => false
  | some s =>
    if s = "" then false
    else if isIntField then (parseInt s).isNone else (parseFloat s).isNone

/-- The numeric fields of each entity's CSV schema, tagged with whether
they are integer (true) or decimal (false) fields. -/
def numFields (t : String) : List (String × Bool) :=
  if t = "categories" then [("parent_category_id", true), ("ID", true)]
  else if t = "products" then
    [("ID", true), ("category", true), ("price", false), ("stock_quantity", true)]
  else if t = "customers" then [("ID", true)]
  else if t = "orders" then
    [("ID", true), ("customer_id", true), ("product_id", true),
     ("quantity", true), ("total_price", false)]
  else if t = "reviews" then
    [("ID", true), ("product_id", true), ("customer_id", true), ("rating", true)]
  else []

/-- The record has a non-empty, non-numeric value in one of the
entity's numeric fields. -/
def rowBad (t : String) (r : Row) : Bool :=
  (numFields t).any (fun f => badVal (rget r f.1) f.2)

/-- The prepared tuple, if it targets products, carries a null price. -/
def priceNone : InsRow → Bool
  | .prodR _ d => d.price.isNone
  | _ => true

/-! ### Coercion lemmas -/

theorem to_int_error_shape (v : Option String) (e : PyErr) (h : to_int v = .error e) :
    ∃ m, e = PyErr.valueError m := by
  cases v with
  | none => simp [to_int] at h
  | some s =>
    by_cases hs : s = ""
    · simp [to_int, hs] at h
    · cases hp : parseInt s with
      | some n => simp [to_int, hs, hp] at h
      | none =>
        simp [to_int, hs, hp] at h
        exact ⟨_, h.symm⟩

theorem to_float_error_shape (v : Option String) (e : PyErr) (h : to_float v = .error e) :
    ∃ m, e = PyErr.valueError m := by
  cases v with
  | none => simp [to_float] at h
  | some s =>
    by_cases hs : s = ""
    · simp [to_float, hs] at h
    · cases hp : parseFloat s with
      | some n => simp [to_float, hs, hp] at h
      | none =>
        simp [to_float, hs, hp] at h
        exact ⟨_, h.symm⟩

theorem badVal_int_error (v : Option String) (h : badVal v true = true) :
    ∃ m, to_int v = .error (.valueError m) := by
  cases v with
  | none => simp [badVal] at h
  | some s =>
    by_cases hs : s = ""
    · simp [badVal, hs] at h
    · cases hp : parseInt s with
      | some n => simp [badVal, hs, hp] at h
      | none =>
        exact ⟨"invalid literal for int() with base 10: " ++ s, by simp [to_int, hs, hp]⟩

theorem badVal_float_error (v : Option String) (h : badVal v false = true) :
    ∃ m, to_float v = .error (.valueError m) := by
  cases v with
  | none => simp [badVal] at h
  | some s =>
    by_cases hs : s = ""
    · simp [badVal, hs] at h
    · cases hp : parseFloat s with
      | some n => simp [badVal, hs, hp] at h
      | none =>
        exact ⟨"could not convert string to float: " ++ s, by simp [to_float, hs, hp]⟩

theorem to_int_ok_badVal (v : Option String) (x : Option Int) (h : to_int v = .ok x) :
    badVal v true = false := by
  cases v with
  | none => simp [badVal]
  | some s =>
    by_cases hs : s = ""
    · simp [badVal, hs]
    · cases hp : parseInt s with
      | some n => simp [badVal, hs, hp]
      | none => simp [to_int, hs, hp] at h

theorem to_float_ok_badVal (v : Option String) (x : Option Rat) (h : to_float v = .ok x) :
    badVal v false = false := by
  cases v with
  | none => simp [badVal]
  | some s =>
    by_cases hs : s = ""
    · simp [badVal, hs]
    · cases hp : parseFloat s with
      | some n => simp [badVal, hs, hp]
      | none => simp [to_float, hs, hp] at h

/-! ### Builder lemmas -/

theorem hasExplicitId_of (r : Row) (i : Option Int)
    (h2 : to_int (rget r "ID") = .ok i) (hid : hasExplicitId r = true) : i.isSome := by
  cases i with
  | none => simp [hasExplicitId, h2] at hid
  | some k => rfl

theorem buildCat_shape (r : Row) :
    (∃ m, buildCat r = .error (.valueError m)) ∨ (∃ p, buildCat r = .ok p) := by
  unfold buildCat
  cases h1 : to_int (rget r "parent_category_id") with
  | error e =>
    obtain ⟨m, rfl⟩ := to_int_error_shape _ _ h1
    exact .inl ⟨m, rfl⟩
  | ok pid =>
    cases h2 : to_int (rget r "ID") with
    | error e =>
      obtain ⟨m, rfl⟩ := to_int_error_shape _ _ h2
      exact .inl ⟨m, rfl⟩
    | ok i => exact .inr ⟨_, rfl⟩

theorem buildProd_shape (r : Row) :
    (∃ m, buildProd r = .error (.valueError m)) ∨ (∃ p, buildProd r = .ok p) := by
  unfold buildProd
  cases h1 : to_int (rget r "ID") with
  | error e =>
    obtain ⟨m, rfl⟩ := to_int_error_shape _ _ h1
    exact .inl ⟨m, rfl⟩
  | ok i =>
    cases h2 : to_int (rget r "category") with
    | error e =>
      obtain ⟨m, rfl⟩ := to_int_error_shape _ _ h2
      exact .inl ⟨m, rfl⟩
    | ok c =>
      cases h3 : to_float (rget r "price") with
      | error e =>
        obtain ⟨m, rfl⟩ := to_float_error_shape _ _ h3
        exact .inl ⟨m, rfl⟩
      | ok pr =>
        cases h4 : to_int (rget r "stock_quantity") with
        | error e =>
          obtain ⟨m, rfl⟩ := to_int_error_shape _ _ h4
          exact .inl ⟨m, rfl⟩
        | ok sq => exact .inr ⟨_, rfl⟩

theorem buildCust_shape (r : Row) :
    (∃ m, buildCust r = .error (.valueError m)) ∨ (∃ p, buildCust r = .ok p) := by
  unfold buildCust
  cases h1 : to_int (rget r "ID") with
  | error e =>
    obtain ⟨m, rfl⟩ := to_int_error_shape _ _ h1
    exact .inl ⟨m, rfl⟩
  | ok i => exact .inr ⟨_, rfl⟩

theorem buildOrd_shape (r : Row) :
    (∃ m, buildOrd r = .error (.valueError m)) ∨ (∃ p, buildOrd r = .ok p) := by
  unfold buildOrd
  cases h1 : to_int (rget r "ID") with
  | error e =>
    obtain ⟨m, rfl⟩ := to_int_error_shape _ _ h1
    exact .inl ⟨m, rfl⟩
  | ok i =>
    cases h2 : to_int (rget r "customer_id") with
    | error e =>
      obtain ⟨m, rfl⟩ := to_int_error_shape _ _ h2
      exact .inl ⟨m, rfl⟩
    | ok cid =>
      cases h3 : to_int (rget r "product_id") with
      | error e =>
        obtain ⟨m, rfl⟩ := to_int_error_shape _ _ h3
        exact .inl ⟨m, rfl⟩
      | ok pid =>
        cases h4 : to_int (rget r "quantity") with
        | error e =>
          obtain ⟨m, rfl⟩ := to_int_error_shape _ _ h4
          exact .inl ⟨m, rfl⟩
        | ok qt =>
          cases h5 : to_float (rget r "total_price") with
          | error e =>
            obtain ⟨m, rfl⟩ := to_float_error_shape _ _ h5
            exact .inl ⟨m, rfl⟩
          | ok tp => exact .inr ⟨_, rfl⟩

theorem buildRev_shape (r : Row) :
    (∃ m, buildRev r = .error (.valueError m)) ∨ (∃ p, buildRev r = .ok p) := by
  unfold buildRev
  cases h1 : to_int (rget r "ID") with
  | error e =>
    obtain ⟨m, rfl⟩ := to_int_error_shape _ _ h1
    exact .inl ⟨m, rfl⟩
  | ok i =>
    cases h2 : to_int (rget r "product_id") with
    | error e =>
      obtain ⟨m, rfl⟩ := to_int_error_shape _ _ h2
      exact .inl ⟨m, rfl⟩
    | ok pid =>
      cases h3 : to_int (rget r "customer_id") with
      | error e =>
        obtain ⟨m, rfl⟩ := to_int_error_shape _ _ h3
        exact .inl ⟨m, rfl⟩
      | ok cid =>
        cases h4 : to_int (rget r "rating") with
        | error e =>
          obtain ⟨m, rfl⟩ := to_int_error_shape _ _ h4
          exact .inl ⟨m, rfl⟩
        | ok rt => exact .inr ⟨_, rfl⟩

theorem buildCat_bad (r : Row) (h : rowBad "categories" r = true) :
    ∃ m, buildCat r = .error (.valueError m) := by
  simp [rowBad, numFields] at h
  cases h1 : to_int (rget r "parent_category_id") with
  | error e =>
    obtain ⟨m, rfl⟩ := to_int_error_shape _ _ h1
    exact ⟨m, by simp [buildCat, h1]⟩
  | ok pid =>
    have hb : badVal (rget r "ID") true = true := by
      rcases h with h | h
      · rw [to_int_ok_badVal _ _ h1] at h; cases h
      · exact h
    obtain ⟨m, hm⟩ := badVal_int_error _ hb
    exact ⟨m, by simp [buildCat, h1, hm]⟩

theorem buildProd_bad (r : Row) (h : rowBad "products" r = true) :
    ∃ m, buildProd r = .error (.valueError m) := by
  simp [rowBad, numFields] at h
  cases h1 : to_int (rget r "ID") with
  | error e =>
    obtain ⟨m, rfl⟩ := to_int_error_shape _ _ h1
    exact ⟨m, by simp [buildProd, h1]⟩
  | ok i =>
    cases h2 : to_int (rget r "category") with
    | error e =>
      obtain ⟨m, rfl⟩ := to_int_error_shape _ _ h2
      exact ⟨m, by simp [buildProd, h1, h2]⟩
    | ok c =>
      cases h3 : to_float (rget r "price") with
      | error e =>
        obtain ⟨m, rfl⟩ := to_float_error_shape _ _ h3
        exact ⟨m, by simp [buildProd, h1, h2, h3]⟩
      | ok pr =>
        have hb : badVal (rget r "stock_quantity") true = true := by
          rcases h with h | h | h | h
          · rw [to_int_ok_badVal _ _ h1] at h; cases h
          · rw [to_int_ok_badVal _ _ h2] at h; cases h
          · rw [to_float_ok_badVal _ _ h3] at h; cases h
          · exact h
        obtain ⟨m, hm⟩ := badVal_int_error _ hb
        exact ⟨m, by simp [buildProd, h1, h2, h3, hm]⟩

theorem buildCust_bad (r : Row) (h : rowBad "customers" r = true) :
    ∃ m, buildCust r = .error (.valueError m) := by
  simp [rowBad, numFields] at h
  obtain ⟨m, hm⟩ := badVal_int_error _ h
  exact ⟨m, by simp [buildCust, hm]⟩

theorem buildOrd_bad (r : Row) (h : rowBad "orders" r = true) :
    ∃ m, buildOrd r = .error (.valueError m) := by
  simp [rowBad, numFields] at h
  cases h1 : to_int (rget r "ID") with
  | error e =>
    obtain ⟨m, rfl⟩ := to_int_error_shape _ _ h1
    exact ⟨m, by simp [buildOrd, h1]⟩
  | ok i =>
    cases h2 : to_int (rget r "customer_id") with
    | error e =>
      obtain ⟨m, rfl⟩ := to_int_error_shape _ _ h2
      exact ⟨m, by simp [buildOrd, h1, h2]⟩
    | ok cid =>
      cases h3 : to_int (rget r "product_id") with
      | error e =>
        obtain ⟨m, rfl⟩ := to_int_error_shape _ _ h3
        exact ⟨m, by simp [buildOrd, h1, h2, h3]⟩
      | ok pid =>
        cases h4 : to_int (rget r "quantity") with
        | error e =>
          obtain ⟨m, rfl⟩ := to_int_error_shape _ _ h4
          exact ⟨m, by simp [buildOrd, h1, h2, h3, h4]⟩
        | ok qt =>
          have hb : badVal (rget r "total_price") false = true := by
            rcases h with h | h | h | h | h
            · rw [to_int_ok_badVal _ _ h1] at h; cases h
            · rw [to_int_ok_badVal _ _ h2] at h; cases h
            · rw [to_int_ok_badVal _ _ h3] at h; cases h
            · rw [to_int_ok_badVal _ _ h4] at h; cases h
            · exact h
          obtain ⟨m, hm⟩ := badVal_float_error _ hb
          exact ⟨m, by simp [buildOrd, h1, h2, h3, h4, hm]⟩

theorem buildRev_bad (r : Row) (h : rowBad "reviews" r = true) :
    ∃ m, buildRev r = .error (.valueError m) := by
  simp [rowBad, numFields] at h
  cases h1 : to_int (rget r "ID") with
  | error e =>
    obtain ⟨m, rfl⟩ := to_int_error_shape _ _ h1
    exact ⟨m, by simp [buildRev, h1]⟩
  | ok i =>
    cases h2 : to_int (rget r "product_id") with
    | error e =>
      obtain ⟨m, rfl⟩ := to_int_error_shape _ _ h2
      exact ⟨m, by simp [buildRev, h1, h2]⟩
    | ok pid =>
      cases h3 : to_int (rget r "customer_id") with
      | error e =>
        obtain ⟨m, rfl⟩ := to_int_error_shape _ _ h3
        exact ⟨m, by simp [buildRev, h1, h2, h3]⟩
      | ok cid =>
        have hb : badVal (rget r "rating") true = true := by
          rcases h with h | h | h | h
          · rw [to_int_ok_badVal _ _ h1] at h; cases h
          · rw [to_int_ok_badVal _ _ h2] at h; cases h
          · rw [to_int_ok_badVal _ _ h3] at h; cases h
          · exact h
        obtain ⟨m, hm⟩ := badVal_int_error _ hb
        exact ⟨m, by simp [buildRev, h1, h2, h3, hm]⟩

theorem buildCat_id (r : Row) (p : InsRow) (h : buildCat r = .ok p)
    (hid : hasExplicitId r = true) : (idOf p).isSome := by
  unfold buildCat at h
  cases h1 : to_int (rget r "parent_category_id") with
  | error e => rw [h1] at h; cases h
  | ok pid =>
    rw [h1] at h
    cases h2 : to_int (rget r "ID") with
    | error e => rw [h2] at h; cases h
    | ok i =>
      rw [h2] at h
      cases h
      exact hasExplicitId_of r i h2 hid

theorem buildProd_id (r : Row) (p : InsRow) (h : buildProd r = .ok p)
    (hid : hasExplicitId r = true) : (idOf p).isSome := by
  unfold buildProd at h
  cases h1 : to_int (rget r "ID") with
  | error e => rw [h1] at h; cases h
  | ok i =>
    rw [h1] at h
    cases h2 : to_int (rget r "category") with
    | error e => rw [h2] at h; cases h
    | ok c =>
      rw [h2] at h
      cases h3 : to_float (rget r "price") with
      | error e => rw [h3] at h; cases h
      | ok pr =>
        rw [h3] at h
        cases h4 : to_int (rget r "stock_quantity") with
        | error e => rw [h4] at h; cases h
        | ok sq =>
          rw [h4] at h
          cases h
          exact hasExplicitId_of r i h1 hid

theorem buildCust_id (r : Row) (p : InsRow) (h : buildCust r = .ok p)
    (hid : hasExplicitId r = true) : (idOf p).isSome := by
  unfold buildCust at h
  cases h1 : to_int (rget r "ID") with
  | error e => rw [h1] at h; cases h
  | ok i =>
    rw [h1] at h
    cases h
    exact hasExplicitId_of r i h1 hid

theorem buildOrd_id (r : Row) (p : InsRow) (h : buildOrd r = .ok p)
    (hid : hasExplicitId r = true) : (idOf p).isSome := by
  unfold buildOrd at h
  cases h1 : to_int (rget r "ID") with
  | error e => rw [h1] at h; cases h
  | ok i =>
    rw [h1] at h
    cases h2 : to_int (rget r "customer_id") with
    | error e => rw [h2] at h; cases h
    | ok cid =>
      rw [h2] at h
      cases h3 : to_int (rget r "product_id") with
      | error e => rw [h3] at h; cases h
      | ok pid =>
        rw [h3] at h
        cases h4 : to_int (rget r "quantity") with
        | error e => rw [h4] at h; cases h
        | ok qt =>
          rw [h4] at h
          cases h5 : to_float (rget r "total_price") with
          | error e => rw [h5] at h; cases h
          | ok tp =>
            rw [h5] at h
            cases h
            exact hasExplicitId_of r i h1 hid

theorem buildRev_id (r : Row) (p : InsRow) (h : buildRev r = .ok p)
    (hid : hasExplicitId r = true) : (idOf p).isSome := by
  unfold buildRev at h
  cases h1 : to_int (rget r "ID") with
  | error e => rw [h1] at h; cases h
  | ok i =>
    rw [h1] at h
    cases h2 : to_int (rget r "product_id") with
    | error e => rw [h2] at h; cases h
    | ok pid =>
      rw [h2] at h
      cases h3 : to_int (rget r "customer_id") with
      | error e => rw [h3] at h; cases h
      | ok cid =>
        rw [h3] at h
        cases h4 : to_int (rget r "rating") with
        | error e => rw [h4] at h; cases h
        | ok rt =>
          rw [h4] at h
          cases h
          exact hasExplicitId_of r i h1 hid

/-! ### buildList and buildParams lemmas -/

theorem buildList_ok_mem (f : Row → Except PyErr InsRow) (rows : List Row)
    (ps : List InsRow) (h : buildList f rows = .ok ps) :
    ∀ p ∈ ps, ∃ r ∈ rows, f r = .ok p := by
  induction rows generalizing ps with
  | nil =>
    unfold buildList at h
    cases h
    intro p hp
    cases hp
  | cons r rs ih =>
    unfold buildList at h
    cases h1 : f r with
    | error e => rw [h1] at h; cases h
    | ok p0 =>
      rw [h1] at h
      cases h2 : buildList f rs with
      | error e => rw [h2] at h; cases h
      | ok ps0 =>
        rw [h2] at h
        cases h
        intro p hp
        rcases List.mem_cons.mp hp with rfl | hmem
        · exact ⟨r, List.mem_cons_self r rs, h1⟩
        · obtain ⟨r1, hr1, hfr1⟩ := ih ps0 h2 p hmem
          exact ⟨r1, List.mem_cons_of_mem r hr1, hfr1⟩

theorem buildList_bad (f : Row → Except PyErr InsRow) (rows : List Row)
    (hf : ∀ r ∈ rows, (∃ m, f r = .error (.valueError m)) ∨ (∃ p, f r = .ok p))
    (hex : ∃ r ∈ rows, ∃ m, f r = .error (.valueError m)) :
    ∃ m, buildList f rows = .error (.valueError m) := by
  induction rows with
  | nil => simp at hex
  | cons r rs ih =>
    rcases hf r (List.mem_cons_self r rs) with ⟨m, hm⟩ | ⟨p, hp⟩
    · exact ⟨m, by simp [buildList, hm]⟩
    · have hex2 : ∃ r1 ∈ rs, ∃ m, f r1 = .error (.valueError m) := by
        rcases hex with ⟨r1, hr1, m, hm⟩
        rcases List.mem_cons.mp hr1 with rfl | hmem
        · rw [hp] at hm; cases hm
        · exact ⟨r1, hmem, m, hm⟩
      obtain ⟨m, hm⟩ := ih (fun r1 h1 => hf r1 (List.mem_cons_of_mem r h1)) hex2
      exact ⟨m, by simp [buildList, hp, hm]⟩

/-! ### Store lemmas -/

/-- All five base tables of the first store are contained in those of
the second (executemany only ever appends rows). -/
def dbLe (a b : DB) : Prop :=
  a.categories ⊆ b.categories ∧ a.products ⊆ b.products ∧ a.customers ⊆ b.customers ∧
    a.orders ⊆ b.orders ∧ a.reviews ⊆ b.reviews

theorem dbLe_refl (a : DB) : dbLe a a :=
  ⟨List.Subset.refl _, List.Subset.refl _, List.Subset.refl _, List.Subset.refl _,
    List.Subset.refl _⟩

theorem mem_ids_of_mem {α : Type} (tbl : List (Int × α)) (k : Int) (x : α)
    (h : (k, x) ∈ tbl) : k ∈ idsOf tbl :=
  List.mem_map_of_mem Prod.fst h

theorem mem_of_mem_ids {α : Type} (tbl : List (Int × α)) (k : Int)
    (h : k ∈ idsOf tbl) : ∃ x, (k, x) ∈ tbl := by
  obtain ⟨pr, hpr, hfst⟩ := List.mem_map.mp h
  exact ⟨pr.2, by rw [← hfst]; exact hpr⟩

theorem ids_mono {α : Type} (t1 t2 : List (Int × α)) (k : Int)
    (hsub : t1 ⊆ t2) (h : k ∈ idsOf t1) : k ∈ idsOf t2 := by
  obtain ⟨x, hx⟩ := mem_of_mem_ids t1 k h
  exact mem_ids_of_mem t2 k x (hsub hx)

theorem insertRow_ok_shape {α : Type} (tbl : List (Int × α)) (idv : Option Int) (pay : α)
    (nn : Bool) (fk : List (Int × α) → Bool) (t2 : List (Int × α))
    (h : insertRow tbl idv pay nn fk = .ok t2) :
    t2 = tbl ∨ ∃ k2, t2 = tbl ++ [(k2, pay)] := by
  unfold insertRow at h
  cases idv with
  | some k =>
    by_cases hc : k ∈ idsOf tbl
    · simp [hc] at h; exact .inl h.symm
    · by_cases hn : nn = false
      · simp [hc, hn] at h; exact .inl h.symm
      · by_cases hf : fk (tbl ++ [(k, pay)]) = false
        · simp [hc, hn, hf] at h
        · simp [hc, hn, hf] at h; exact .inr ⟨k, h.symm⟩
  | none =>
    by_cases hn : nn = false
    · simp [hn] at h; exact .inl h.symm
    · by_cases hf : fk (tbl ++ [(nextId tbl, pay)]) = false
      · simp [hn, hf] at h
      · simp [hn, hf] at h; exact .inr ⟨nextId tbl, h.symm⟩

theorem insertRow_dup {α : Type} (tbl : List (Int × α)) (k : Int) (pay : α)
    (nn : Bool) (fk : List (Int × α) → Bool) (hc : k ∈ idsOf tbl) :
    insertRow tbl (some k) pay nn fk = .ok tbl := by
  simp [insertRow, hc]

theorem insertRow_skip {α : Type} (tbl : List (Int × α)) (k : Int) (pay : α)
    (fk : List (Int × α) → Bool) (hc : k ∉ idsOf tbl) :
    insertRow tbl (some k) pay false fk = .ok tbl := by
  simp [insertRow, hc]

theorem insertRow_some_cases {α : Type} (tbl : List (Int × α)) (k : Int) (pay : α)
    (nn : Bool) (fk : List (Int × α) → Bool) (t2 : List (Int × α))
    (h : insertRow tbl (some k) pay nn fk = .ok t2) :
    (k ∈ idsOf tbl ∧ t2 = tbl) ∨
      (k ∉ idsOf tbl ∧ nn = false ∧ t2 = tbl) ∨
      (k ∉ idsOf tbl ∧ t2 = tbl ++ [(k, pay)]) := by
  unfold insertRow at h
  by_cases hc : k ∈ idsOf tbl
  · simp [hc] at h; exact .inl ⟨hc, h.symm⟩
  · by_cases hn : nn = false
    · simp [hc, hn] at h; exact .inr (.inl ⟨hc, hn, h.symm⟩)
    · by_cases hf : fk (tbl ++ [(k, pay)]) = false
      · simp [hc, hn, hf] at h
      · simp [hc, hn, hf] at h; exact .inr (.inr ⟨hc, h.symm⟩)

theorem dbLe_trans (a b c : DB) (h1 : dbLe a b) (h2 : dbLe b c) : dbLe a c :=
  ⟨h1.1.trans h2.1, h1.2.1.trans h2.2.1, h1.2.2.1.trans h2.2.2.1,
    h1.2.2.2.1.trans h2.2.2.2.1, h1.2.2.2.2.trans h2.2.2.2.2⟩

theorem insertOne_le (db : DB) (p : InsRow) (db2 : DB) (h : insertOne db p = .ok db2) :
    dbLe db db2 := by
  cases p with
  | cat i d =>
    simp only [insertOne] at h
    cases hr : insertRow db.categories i d d.category_name.isSome
        (fun t => hasId t d.parent_category_id) with
    | error e => rw [hr] at h; cases h
    | ok t =>
      rw [hr] at h; cases h
      rcases insertRow_ok_shape _ _ _ _ _ _ hr with rfl | ⟨k2, rfl⟩
      · exact dbLe_refl _
      · exact ⟨List.subset_append_left _ _, List.Subset.refl _, List.Subset.refl _,
          List.Subset.refl _, List.Subset.refl _⟩
  | prodR i d =>
    simp only [insertOne] at h
    cases hr : insertRow db.products i d d.name.isSome
        (fun _ => hasId db.categories d.category) with
    | error e => rw [hr] at h; cases h
    | ok t =>
      rw [hr] at h; cases h
      rcases insertRow_ok_shape _ _ _ _ _ _ hr with rfl | ⟨k2, rfl⟩
      · exact dbLe_refl _
      · exact ⟨List.Subset.refl _, List.subset_append_left _ _, List.Subset.refl _,
          List.Subset.refl _, List.Subset.refl _⟩
  | cust i d =>
    simp only [insertOne] at h
    cases hr : insertRow db.customers i d d.name.isSome (fun _ => true) with
    | error e => rw [hr] at h; cases h
    | ok t =>
      rw [hr] at h; cases h
      rcases insertRow_ok_shape _ _ _ _ _ _ hr with rfl | ⟨k2, rfl⟩
      · exact dbLe_refl _
      · exact ⟨List.Subset.refl _, List.Subset.refl _, List.subset_append_left _ _,
          List.Subset.refl _, List.Subset.refl _⟩
  | ordR i d =>
    simp only [insertOne] at h
    cases hr : insertRow db.orders i d true
        (fun _ => hasId db.customers d.customer_id && hasId db.products d.product_id) with
    | error e => rw [hr] at h; cases h
    | ok t =>
      rw [hr] at h; cases h
      rcases insertRow_ok_shape _ _ _ _ _ _ hr with rfl | ⟨k2, rfl⟩
      · exact dbLe_refl _
      · exact ⟨List.Subset.refl _, List.Subset.refl _, List.Subset.refl _,
          List.subset_append_left _ _, List.Subset.refl _⟩
  | revR i d =>
    simp only [insertOne] at h
    cases hr : insertRow db.reviews i d true
        (fun _ => hasId db.products d.product_id && hasId db.customers d.customer_id) with
    | error e => rw [hr] at h; cases h
    | ok t =>
      rw [hr] at h; cases h
      rcases insertRow_ok_shape _ _ _ _ _ _ hr with rfl | ⟨k2, rfl⟩
      · exact dbLe_refl _
      · exact ⟨List.Subset.refl _, List.Subset.refl _, List.Subset.refl _,
          List.Subset.refl _, List.subset_append_left _ _⟩

theorem executemany_le (db : DB) (ps : List InsRow) (db2 : DB)
    (h : executemany db ps = .ok db2) : dbLe db db2 := by
  induction ps generalizing db with
  | nil =>
    unfold executemany at h
    cases h
    exact dbLe_refl _
  | cons p ps ih =>
    unfold executemany at h
    cases h1 : insertOne db p with
    | error e => rw [h1] at h; cases h
    | ok dbM =>
      rw [h1] at h
      exact dbLe_trans _ _ _ (insertOne_le _ _ _ h1) (ih dbM h)

theorem insertOne_idem (db dbMid dbBig : DB) (p : InsRow) (hid : (idOf p).isSome = true)
    (h1 : insertOne db p = .ok dbMid) (hmid : dbLe dbMid dbBig) :
    insertOne dbBig p = .ok dbBig := by
  cases p with
  | cat i d =>
    obtain ⟨k, rfl⟩ : ∃ k, i = some k := by
      cases i with
      | none => simp [idOf] at hid
      | some k => exact ⟨k, rfl⟩
    simp only [insertOne] at h1 ⊢
    cases hr : insertRow db.categories (some k) d d.category_name.isSome
        (fun t => hasId t d.parent_category_id) with
    | error e => rw [hr] at h1; cases h1
    | ok t =>
      rw [hr] at h1; cases h1
      rcases insertRow_some_cases _ _ _ _ _ _ hr with ⟨hk, rfl⟩ | ⟨hk, hnn, rfl⟩ | ⟨hk, rfl⟩
      · have hkB : k ∈ idsOf dbBig.categories := ids_mono _ _ _ hmid.1 hk
        rw [insertRow_dup _ _ _ _ _ hkB]
      · by_cases hkB : k ∈ idsOf dbBig.categories
        · rw [insertRow_dup _ _ _ _ _ hkB]
        · rw [hnn, insertRow_skip _ _ _ _ hkB]
      · have hkB : k ∈ idsOf dbBig.categories := by
          apply mem_ids_of_mem _ _ d
          apply hmid.1
          simp
        rw [insertRow_dup _ _ _ _ _ hkB]
  | prodR i d =>
    obtain ⟨k, rfl⟩ : ∃ k, i = some k := by
      cases i with
      | none => simp [idOf] at hid
      | some k => exact ⟨k, rfl⟩
    simp only [insertOne] at h1 ⊢
    cases hr : insertRow db.products (some k) d d.name.isSome
        (fun _ => hasId db.categories d.category) with
    | error e => rw [hr] at h1; cases h1
    | ok t =>
      rw [hr] at h1; cases h1
      rcases insertRow_some_cases _ _ _ _ _ _ hr with ⟨hk, rfl⟩ | ⟨hk, hnn, rfl⟩ | ⟨hk, rfl⟩
      · have hkB : k ∈ idsOf dbBig.products := ids_mono _ _ _ hmid.2.1 hk
        rw [insertRow_dup _ _ _ _ _ hkB]
      · by_cases hkB : k ∈ idsOf dbBig.products
        · rw [insertRow_dup _ _ _ _ _ hkB]
        · rw [hnn, insertRow_skip _ _ _ _ hkB]
      · have hkB : k ∈ idsOf dbBig.products := by
          apply mem_ids_of_mem _ _ d
          apply hmid.2.1
          simp
        rw [insertRow_dup _ _ _ _ _ hkB]
  | cust i d =>
    obtain ⟨k, rfl⟩ : ∃ k, i = some k := by
      cases i with
      | none => simp [idOf] at hid
      | some k => exact ⟨k, rfl⟩
    simp only [insertOne] at h1 ⊢
    cases hr : insertRow db.customers (some k) d d.name.isSome (fun _ => true) with
    | error e => rw [hr] at h1; cases h1
    | ok t =>
      rw [hr] at h1; cases h1
      rcases insertRow_some_cases _ _ _ _ _ _ hr with ⟨hk, rfl⟩ | ⟨hk, hnn, rfl⟩ | ⟨hk, rfl⟩
      · have hkB : k ∈ idsOf dbBig.customers := ids_mono _ _ _ hmid.2.2.1 hk
        rw [insertRow_dup _ _ _ _ _ hkB]
      · by_cases hkB : k ∈ idsOf dbBig.customers
        · rw [insertRow_dup _ _ _ _ _ hkB]
        · rw [hnn, insertRow_skip _ _ _ _ hkB]
      · have hkB : k ∈ idsOf dbBig.customers := by
          apply mem_ids_of_mem _ _ d
          apply hmid.2.2.1
          simp
        rw [insertRow_dup _ _ _ _ _ hkB]
  | ordR i d =>
    obtain ⟨k, rfl⟩ : ∃ k, i = some k := by
      cases i with
      | none => simp [idOf] at hid
      | some k => exact ⟨k, rfl⟩
    simp only [insertOne] at h1 ⊢
    cases hr : insertRow db.orders (some k) d true
        (fun _ => hasId db.customers d.customer_id && hasId db.products d.product_id) with
    | error e => rw [hr] at h1; cases h1
    | ok t =>
      rw [hr] at h1; cases h1
      rcases insertRow_some_cases _ _ _ _ _ _ hr with ⟨hk, rfl⟩ | ⟨hk, hnn, rfl⟩ | ⟨hk, rfl⟩
      · have hkB : k ∈ idsOf dbBig.orders := ids_mono _ _ _ hmid.2.2.2.1 hk
        rw [insertRow_dup _ _ _ _ _ hkB]
      · simp at hnn
      · have hkB : k ∈ idsOf dbBig.orders := by
          apply mem_ids_of_mem _ _ d
          apply hmid.2.2.2.1
          simp
        rw [insertRow_dup _ _ _ _ _ hkB]
  | revR i d =>
    obtain ⟨k, rfl⟩ : ∃ k, i = some k := by
      cases i with
      | none => simp [idOf] at hid
      | some k => exact ⟨k, rfl⟩
    simp only [insertOne] at h1 ⊢
    cases hr : insertRow db.reviews (some k) d true
        (fun _ => hasId db.products d.product_id && hasId db.customers d.customer_id) with
    | error e => rw [hr] at h1; cases h1
    | ok t =>
      rw [hr] at h1; cases h1
      rcases insertRow_some_cases _ _ _ _ _ _ hr with ⟨hk, rfl⟩ | ⟨hk, hnn, rfl⟩ | ⟨hk, rfl⟩
      · have hkB : k ∈ idsOf dbBig.reviews := ids_mono _ _ _ hmid.2.2.2.2 hk
        rw [insertRow_dup _ _ _ _ _ hkB]
      · simp at hnn
      · have hkB : k ∈ idsOf dbBig.reviews := by
          apply mem_ids_of_mem _ _ d
          apply hmid.2.2.2.2
          simp
        rw [insertRow_dup _ _ _ _ _ hkB]

theorem executemany_idem (ps : List InsRow) (db db1 : DB)
    (h : executemany db ps = .ok db1) (hids : ∀ p ∈ ps, (idOf p).isSome = true) :
    executemany db1 ps = .ok db1 := by
  induction ps generalizing db with
  | nil => rfl
  | cons p ps ih =>
    unfold executemany at h ⊢
    cases h1 : insertOne db p with
    | error e => rw [h1] at h; cases h
    | ok dbMid =>
      rw [h1] at h
      have hmid : dbLe dbMid db1 := executemany_le _ _ _ h
      rw [insertOne_idem db dbMid db1 p (hids p (List.mem_cons_self p ps)) h1 hmid]
      exact ih dbMid h (fun q hq => hids q (List.mem_cons_of_mem p hq))

theorem insertOne_price (db : DB) (p : InsRow) (db2 : DB)
    (h : insertOne db p = .ok db2) (hp : priceNone p = true) :
    ∀ e ∈ db2.products, e ∈ db.products ∨ e.2.price = none := by
  cases p with
  | cat i d =>
    simp only [insertOne] at h
    cases hr : insertRow db.categories i d d.category_name.isSome
        (fun t => hasId t d.parent_category_id) with
    | error e => rw [hr] at h; cases h
    | ok t => rw [hr] at h; cases h; exact fun e he => .inl he
  | prodR i d =>
    have hd : d.price = none := by
      simp [priceNone, Option.isNone_iff_eq_none] at hp
      exact hp
    simp only [insertOne] at h
    cases hr : insertRow db.products i d d.name.isSome
        (fun _ => hasId db.categories d.category) with
    | error e => rw [hr] at h; cases h
    | ok t =>
      rw [hr] at h; cases h
      rcases insertRow_ok_shape _ _ _ _ _ _ hr with rfl | ⟨k2, rfl⟩
      · exact fun e he => .inl he
      · intro e he
        rcases List.mem_append.mp he with he1 | he2
        · exact .inl he1
        · right
          rw [List.mem_singleton.mp he2]
          exact hd
  | cust i d =>
    simp only [insertOne] at h
    cases hr : insertRow db.customers i d d.name.isSome (fun _ => true) with
    | error e => rw [hr] at h; cases h
    | ok t => rw [hr] at h; cases h; exact fun e he => .inl he
  | ordR i d =>
    simp only [insertOne] at h
    cases hr : insertRow db.orders i d true
        (fun _ => hasId db.customers d.customer_id && hasId db.products d.product_id) with
    | error e => rw [hr] at h; cases h
    | ok t => rw [hr] at h; cases h; exact fun e he => .inl he
  | revR i d =>
    simp only [insertOne] at h
    cases hr : insertRow db.reviews i d true
        (fun _ => hasId db.products d.product_id && hasId db.customers d.customer_id) with
    | error e => rw [hr] at h; cases h
    | ok t => rw [hr] at h; cases h; exact fun e he => .inl he

theorem executemany_price (ps : List InsRow) (db db1 : DB)
    (h : executemany db ps = .ok db1) (hps : ∀ p ∈ ps, priceNone p = true) :
    ∀ e ∈ db1.products, e ∈ db.products ∨ e.2.price = none := by
  induction ps generalizing db with
  | nil =>
    unfold executemany at h
    cases h
    exact fun e he => .inl he
  | cons p ps ih =>
    unfold executemany at h
    cases h1 : insertOne db p with
    | error e => rw [h1] at h; cases h
    | ok dbMid =>
      rw [h1] at h
      intro e he
      rcases ih dbMid h (fun q hq => hps q (List.mem_cons_of_mem p hq)) e he with hmem | hnone
      · exact insertOne_price db p dbMid h1 (hps p (List.mem_cons_self p ps)) e hmem
      · exact .inr hnone

/-! ### buildParams and insert_csv lemmas -/

theorem buildParams_five (t : String) (rows : List Row) (ps : List InsRow)
    (h : buildParams t rows = .ok ps) :
    t = "categories" ∨ t = "products" ∨ t = "customers" ∨ t = "orders" ∨ t = "reviews" := by
  by_cases h1 : t = "categories"
  · exact .inl h1
  by_cases h2 : t = "products"
  · exact .inr (.inl h2)
  by_cases h3 : t = "customers"
  · exact .inr (.inr (.inl h3))
  by_cases h4 : t = "orders"
  · exact .inr (.inr (.inr (.inl h4)))
  by_cases h5 : t = "reviews"
  · exact .inr (.inr (.inr (.inr h5)))
  exact absurd h (by simp [buildParams, h1, h2, h3, h4, h5])

theorem buildParams_ids (t : String) (rows : List Row) (ps : List InsRow)
    (h : buildParams t rows = .ok ps) (hid : ∀ r ∈ rows, hasExplicitId r = true) :
    ∀ p ∈ ps, (idOf p).isSome = true := by
  intro p hp
  rcases buildParams_five t rows ps h with rfl | rfl | rfl | rfl | rfl
  · simp only [buildParams, if_pos] at h
    obtain ⟨r, hr, hfr⟩ := buildList_ok_mem _ _ _ h p hp
    exact buildCat_id r p hfr (hid r hr)
  · simp only [buildParams, reduceIte] at h
    obtain ⟨r, hr, hfr⟩ := buildList_ok_mem _ _ _ h p hp
    exact buildProd_id r p hfr (hid r hr)
  · simp only [buildParams, reduceIte] at h
    obtain ⟨r, hr, hfr⟩ := buildList_ok_mem _ _ _ h p hp
    exact buildCust_id r p hfr (hid r hr)
  · simp only [buildParams, reduceIte] at h
    obtain ⟨r, hr, hfr⟩ := buildList_ok_mem _ _ _ h p hp
    exact buildOrd_id r p hfr (hid r hr)
  · simp only [buildParams, reduceIte] at h
    obtain ⟨r, hr, hfr⟩ := buildList_ok_mem _ _ _ h p hp
    exact buildRev_id r p hfr (hid r hr)

theorem insert_csv_some_ok (fs : Filesystem) (db : DB) (table fp : String) (rows : List Row)
    (n : Int) (db1 : DB) (evs : List Ev) (hf : fs fp = some rows)
    (h : insert_csv fs db table fp = .ok (n, db1, evs)) :
    ∃ before ps after, rowCount db table = .ok before ∧ buildParams table rows = .ok ps ∧
      executemany db ps = .ok db1 ∧ rowCount db1 table = .ok after ∧
      n = (after : Int) - before ∧ evs = [] := by
  unfold insert_csv at h
  cases h0 : rowCount db table with
  | error e => rw [h0] at h; cases h
  | ok before =>
    simp only [h0, hf] at h
    cases h1 : buildParams table rows with
    | error e => simp only [h1] at h; cases h
    | ok ps =>
      simp only [h1] at h
      cases h2 : executemany db ps with
      | error e => simp only [h2] at h; cases h
      | ok db2 =>
        simp only [h2] at h
        cases h3 : rowCount db2 table with
        | error e => simp only [h3] at h; cases h
        | ok after =>
          simp only [h3, Except.ok.injEq, Prod.mk.injEq] at h
          obtain ⟨hn, hdb, hevs⟩ := h
          subst hn hdb hevs
          exact ⟨before, ps, after, rfl, rfl, h2, h3, rfl, rfl⟩

theorem insert_csv_build (fs : Filesystem) (db : DB) (table fp : String) (rows : List Row)
    (before : Nat) (ps : List InsRow) (db1 : DB) (after : Nat) (hf : fs fp = some rows)
    (h0 : rowCount db table = .ok before) (h1 : buildParams table rows = .ok ps)
    (h2 : executemany db ps = .ok db1) (h3 : rowCount db1 table = .ok after) :
    insert_csv fs db table fp = .ok ((after : Int) - (before : Int), db1, []) := by
  unfold insert_csv
  simp only [h0, hf, h1, h2, h3]

theorem insert_csv_none (fs : Filesystem) (db : DB) (table fp : String) (before : Nat)
    (h0 : rowCount db table = .ok before) (hf : fs fp = none) :
    insert_csv fs db table fp =
      .ok (0, db, [Ev.print ("Warning: " ++ fp ++ " not found, skipping " ++ table ++ ".")]) := by
  unfold insert_csv
  simp only [h0, hf]

theorem insert_csv_evs (fs : Filesystem) (db : DB) (table fp : String) (n : Int)
    (db1 : DB) (evs : List Ev) (h : insert_csv fs db table fp = .ok (n, db1, evs)) :
    ∀ ev ∈ evs, ∃ m, ev = Ev.print m := by
  cases hf : fs fp with
  | some rows =>
    obtain ⟨b, ps, a, _, _, _, _, _, hevs⟩ :=
      insert_csv_some_ok fs db table fp rows n db1 evs hf h
    subst hevs
    intro ev hev
    cases hev
  | none =>
    unfold insert_csv at h
    cases h0 : rowCount db table with
    | error e => rw [h0] at h; cases h
    | ok before =>
      simp only [h0, hf, Except.ok.injEq, Prod.mk.injEq] at h
      obtain ⟨hn, hdb, hevs⟩ := h
      subst hevs
      intro ev hev
      exact ⟨_, List.mem_singleton.mp hev⟩

theorem loaderLoop_names (fs : Filesystem) (ts : List String) (db : DB)
    (res : List (String × Int)) (db2 : DB) (evs : List Ev)
    (h : InsertData.loaderLoop fs ts db = (.ok res, db2, evs)) :
    res.map Prod.fst = ts := by
  induction ts generalizing db res db2 evs with
  | nil =>
    unfold InsertData.loaderLoop at h
    simp only [Prod.mk.injEq] at h
    obtain ⟨h1, h2, h3⟩ := h
    cases h1
    rfl
  | cons t ts ih =>
    unfold InsertData.loaderLoop at h
    cases hd : dictGet DATA_FILES t with
    | none =>
      simp only [hd] at h
      simp only [Prod.mk.injEq] at h
      exact absurd h.1 (by simp)
    | some fn =>
      simp only [hd] at h
      cases hi : insert_csv fs db t fn with
      | error e =>
        simp only [hi] at h
        simp only [Prod.mk.injEq] at h
        exact absurd h.1 (by simp)
      | ok trip =>
        simp only [hi] at h
        obtain ⟨n1, db1, evs1⟩ := trip
        rcases hl : InsertData.loaderLoop fs ts db1 with ⟨r, db3, evs2⟩
        simp only [hl] at h
        simp only [Prod.mk.injEq] at h
        obtain ⟨h1, h2, h3⟩ := h
        cases r with
        | error e => simp [Except.map] at h1
        | ok res0 =>
          simp only [Except.map, Except.ok.injEq] at h1
          subst h1
          simp only [List.map_cons]
          rw [ih db1 res0 db3 evs2 hl]

theorem loaderLoop_evs (fs : Filesystem) (ts : List String) (db : DB)
    (r : Except PyErr (List (String × Int))) (db2 : DB) (evs : List Ev)
    (h : InsertData.loaderLoop fs ts db = (r, db2, evs)) :
    ∀ ev ∈ evs, ∃ m, ev = Ev.print m := by
  induction ts generalizing db r db2 evs with
  | nil =>
    unfold InsertData.loaderLoop at h
    simp only [Prod.mk.injEq] at h
    obtain ⟨h1, h2, h3⟩ := h
    subst h3
    intro ev hev
    cases hev
  | cons t ts ih =>
    unfold InsertData.loaderLoop at h
    cases hd : dictGet DATA_FILES t with
    | none =>
      simp only [hd] at h
      simp only [Prod.mk.injEq] at h
      obtain ⟨h1, h2, h3⟩ := h
      subst h3
      intro ev hev
      cases hev
    | some fn =>
      simp only [hd] at h
      cases hi : insert_csv fs db t fn with
      | error e =>
        simp only [hi] at h
        simp only [Prod.mk.injEq] at h
        obtain ⟨h1, h2, h3⟩ := h
        subst h3
        intro ev hev
        cases hev
      | ok trip =>
        simp only [hi] at h
        obtain ⟨n1, db1, evs1⟩ := trip
        rcases hl : InsertData.loaderLoop fs ts db1 with ⟨r2, db3, evs2⟩
        simp only [hl] at h
        simp only [Prod.mk.injEq] at h
        obtain ⟨h1, h2, h3⟩ := h
        subst h3
        intro ev hev
        rcases List.mem_append.mp hev with hev1 | hev2
        · exact insert_csv_evs fs db t fn n1 db1 evs1 hi ev hev1
        · exact ih db1 r2 db3 evs2 hl ev hev2

/-! ### Claim C1 -/

/-- Claim C1, amended: for every entity and CSV input whose rows all
carry a non-empty ID value, running insert_csv a second time on the
same input against the store left by a successful first run returns an
inserted-count of zero and leaves the store unchanged.  (The amendment
restricts the claim to rows with explicit ids: a row whose ID field is
absent or empty is keyed on a freshly auto-assigned rowid and is
re-inserted by the second run, see the counterexample.) -/
theorem C1_insert_csv_idempotent (fs : Filesystem) (db : DB) (t fp : String)
    (rows : List Row) (n : Int) (db1 : DB) (evs : List Ev)
    (hf : fs fp = some rows)
    (hids : ∀ r ∈ rows, hasExplicitId r = true)
    (h1 : insert_csv fs db t fp = .ok (n, db1, evs)) :
    insert_csv fs db1 t fp = .ok (0, db1, []) := by
  obtain ⟨before, ps, after, h0, hbp, hex, h3, hn, hevs⟩ :=
    insert_csv_some_ok fs db t fp rows n db1 evs hf h1
  have hidp : ∀ p ∈ ps, (idOf p).isSome = true := buildParams_ids t rows ps hbp hids
  have hex2 : executemany db1 ps = .ok db1 := executemany_idem ps db db1 hex hidp
  have h4 := insert_csv_build fs db1 t fp rows after ps db1 after hf h3 hbp hex2 h3
  rw [h4]
  simp

/-- The filesystem of the C1 idempotence witness: a customers CSV with
one fully keyed record. -/
def c1fs : Filesystem :=
  fun p => if p = "customers.csv" then some [[("ID", "7"), ("name", "A")]] else none

/-- The store after the first C1 witness run. -/
def c1db1 : DB := { emptyDB with customers := [(7, ⟨some "A", none, none⟩)] }

/-- Claim C1 witness: the amended idempotence at a concrete input. -/
theorem C1_witness :
    insert_csv c1fs c1db1 "customers" "customers.csv" = .ok (0, c1db1, []) :=
  C1_insert_csv_idempotent c1fs emptyDB "customers" "customers.csv"
    [[("ID", "7"), ("name", "A")]] 1 c1db1 [] rfl (by decide) rfl

/-- The filesystem of the C1 counterexample: a customers CSV whose one
record has no ID cell. -/
def c1badfs : Filesystem :=
  fun p => if p = "customers.csv" then some [[("name", "A")]] else none

/-- Store after the first counterexample run: rowid 1 auto-assigned. -/
def c1bdb1 : DB := { emptyDB with customers := [(1, ⟨some "A", none, none⟩)] }

/-- Store after the second counterexample run: rowid 2 auto-assigned. -/
def c1bdb2 : DB :=
  { emptyDB with customers := [(1, ⟨some "A", none, none⟩), (2, ⟨some "A", none, none⟩)] }

/-- Claim C1 counterexample: on a CSV record with no ID value the
second run inserts the record again under a fresh auto-assigned rowid,
so the second-run inserted-count is 1, not 0, and the table grows. -/
theorem C1_counterexample :
    insert_csv c1badfs emptyDB "customers" "customers.csv" = .ok (1, c1bdb1, []) ∧
      insert_csv c1badfs c1bdb1 "customers" "customers.csv" = .ok (1, c1bdb2, []) :=
  ⟨rfl, rfl⟩

/-! ### Claim C3 -/

/-- Claim C3: for every entity batch containing some row with a
non-empty, non-numeric value in a numeric field, insert_csv for that
entity fails with a type-conversion ValueError; since every row is
converted before any insert is issued and the error return models the
raised exception before commit, no new rows from the file become
visible in the store. -/
theorem C3_bad_numeric_fails (fs : Filesystem) (db : DB) (t fp : String) (rows : List Row)
    (h5 : t ∈ insertionOrder) (hf : fs fp = some rows)
    (hbad : ∃ r ∈ rows, rowBad t r = true) :
    ∃ msg, insert_csv fs db t fp = .error (.valueError msg) := by
  simp only [insertionOrder, List.mem_cons, List.not_mem_nil, or_false] at h5
  rcases h5 with rfl | rfl | rfl | rfl | rfl
  · have hex : ∃ r ∈ rows, ∃ m, buildCat r = .error (.valueError m) := by
      obtain ⟨r, hr, hb⟩ := hbad
      obtain ⟨m, hm⟩ := buildCat_bad r hb
      exact ⟨r, hr, m, hm⟩
    obtain ⟨m, hm⟩ := buildList_bad _ _ (fun r _ => buildCat_shape r) hex
    refine ⟨m, ?_⟩
    unfold insert_csv
    simp only [show rowCount db "categories" = .ok db.categories.length from rfl, hf,
      show buildParams "categories" rows = buildList buildCat rows from rfl, hm]
  · have hex : ∃ r ∈ rows, ∃ m, buildProd r = .error (.valueError m) := by
      obtain ⟨r, hr, hb⟩ := hbad
      obtain ⟨m, hm⟩ := buildProd_bad r hb
      exact ⟨r, hr, m, hm⟩
    obtain ⟨m, hm⟩ := buildList_bad _ _ (fun r _ => buildProd_shape r) hex
    refine ⟨m, ?_⟩
    unfold insert_csv
    simp only [show rowCount db "products" = .ok db.products.length from rfl, hf,
      show buildParams "products" rows = buildList buildProd rows from rfl, hm]
  · have hex : ∃ r ∈ rows, ∃ m, buildCust r = .error (.valueError m) := by
      obtain ⟨r, hr, hb⟩ := hbad
      obtain ⟨m, hm⟩ := buildCust_bad r hb
      exact ⟨r, hr, m, hm⟩
    obtain ⟨m, hm⟩ := buildList_bad _ _ (fun r _ => buildCust_shape r) hex
    refine ⟨m, ?_⟩
    unfold insert_csv
    simp only [show rowCount db "customers" = .ok db.customers.length from rfl, hf,
      show buildParams "customers" rows = buildList buildCust rows from rfl, hm]
  · have hex : ∃ r ∈ rows, ∃ m, buildOrd r = .error (.valueError m) := by
      obtain ⟨r, hr, hb⟩ := hbad
      obtain ⟨m, hm⟩ := buildOrd_bad r hb
      exact ⟨r, hr, m, hm⟩
    obtain ⟨m, hm⟩ := buildList_bad _ _ (fun r _ => buildOrd_shape r) hex
    refine ⟨m, ?_⟩
    unfold insert_csv
    simp only [show rowCount db "orders" = .ok db.orders.length from rfl, hf,
      show buildParams "orders" rows = buildList buildOrd rows from rfl, hm]
  · have hex : ∃ r ∈ rows, ∃ m, buildRev r = .error (.valueError m) := by
      obtain ⟨r, hr, hb⟩ := hbad
      obtain ⟨m, hm⟩ := buildRev_bad r hb
      exact ⟨r, hr, m, hm⟩
    obtain ⟨m, hm⟩ := buildList_bad _ _ (fun r _ => buildRev_shape r) hex
    refine ⟨m, ?_⟩
    unfold insert_csv
    simp only [show rowCount db "reviews" = .ok db.reviews.length from rfl, hf,
      show buildParams "reviews" rows = buildList buildRev rows from rfl, hm]

/-- The filesystem of the C3 witness: a products CSV whose one record
has the non-numeric price "abc". -/
def c3fs : Filesystem :=
  fun p =>
    if p = "products.csv" then some [[("ID", "1"), ("name", "x"), ("price", "abc")]] else none

/-- Claim C3 witness: the failure at a concrete input. -/
theorem C3_witness :
    ∃ msg, insert_csv c3fs emptyDB "products" "products.csv" = .error (.valueError msg) :=
  C3_bad_numeric_fails c3fs emptyDB "products" "products.csv"
    [[("ID", "1"), ("name", "x"), ("price", "abc")]] (by decide) rfl (by decide)

/-! ### Claim C4 -/

/-- Claim C4: the coercion functions send an absent value and the empty
string to null — not zero and not an error — and, shown here for the
products price column, a batch whose rows all leave the field empty
stores null in that field for every newly inserted row. -/
theorem C4_empty_numeric_null (fs : Filesystem) (db : DB) (fp : String) (rows : List Row)
    (n : Int) (db1 : DB) (evs : List Ev) (hf : fs fp = some rows)
    (hall : ∀ r ∈ rows, rget r "price" = none ∨ rget r "price" = some "")
    (h1 : insert_csv fs db "products" fp = .ok (n, db1, evs)) :
    (to_int none = .ok none ∧ to_int (some "") = .ok none ∧
      to_float none = .ok none ∧ to_float (some "") = .ok none) ∧
    ∀ e ∈ db1.products, e ∈ db.products ∨ e.2.price = none := by
  refine ⟨⟨rfl, rfl, rfl, rfl⟩, ?_⟩
  obtain ⟨before, ps, after, h0, hbp, hex, h3, hn, hevs⟩ :=
    insert_csv_some_ok fs db "products" fp rows n db1 evs hf h1
  have hbl : buildList buildProd rows = .ok ps := hbp
  have hps : ∀ p ∈ ps, priceNone p = true := by
    intro p hp
    obtain ⟨r, hr, hfr⟩ := buildList_ok_mem _ _ _ hbl p hp
    have hpr : to_float (rget r "price") = .ok none := by
      rcases hall r hr with hv | hv <;> rw [hv] <;> rfl
    unfold buildProd at hfr
    cases hA : to_int (rget r "ID") with
    | error e => rw [hA] at hfr; cases hfr
    | ok i =>
      rw [hA] at hfr
      cases hB : to_int (rget r "category") with
      | error e => rw [hB] at hfr; cases hfr
      | ok c =>
        rw [hB, hpr] at hfr
        cases hC : to_int (rget r "stock_quantity") with
        | error e => rw [hC] at hfr; cases hfr
        | ok sq =>
          rw [hC] at hfr
          cases hfr
          rfl
  exact executemany_price ps db db1 hex hps

/-- The filesystem of the C4 witness: a products CSV whose one record
has an empty price cell. -/
def c4fs : Filesystem :=
  fun p =>
    if p = "products.csv" then some [[("ID", "1"), ("name", "x"), ("price", "")]] else none

/-- The store after the C4 witness run: the price stored as null. -/
def c4db1 : DB := { emptyDB with products := [(1, ⟨some "x", none, none, none⟩)] }

/-- Claim C4 witness: the null coercion and null storage at a concrete
input. -/
theorem C4_witness :
    (to_int none = .ok none ∧ to_int (some "") = .ok none ∧
      to_float none = .ok none ∧ to_float (some "") = .ok none) ∧
    ∀ e ∈ c4db1.products, e ∈ emptyDB.products ∨ e.2.price = none :=
  C4_empty_numeric_null c4fs emptyDB "products.csv"
    [[("ID", "1"), ("name", "x"), ("price", "")]] 1 c4db1 [] rfl (by decide) rfl

/-! ### Claim C6 -/

/-- Claim C6: for every entity whose source CSV file is absent,
insert_csv prints a warning, returns an inserted-count of zero, does
not raise, and leaves the store unchanged. -/
theorem C6_missing_file (fs : Filesystem) (db : DB) (t fp : String)
    (h5 : t ∈ insertionOrder) (hf : fs fp = none) :
    insert_csv fs db t fp =
      .ok (0, db, [Ev.print ("Warning: " ++ fp ++ " not found, skipping " ++ t ++ ".")]) := by
  simp only [insertionOrder, List.mem_cons, List.not_mem_nil, or_false] at h5
  rcases h5 with rfl | rfl | rfl | rfl | rfl
  · exact insert_csv_none fs db _ fp db.categories.length rfl hf
  · exact insert_csv_none fs db _ fp db.products.length rfl hf
  · exact insert_csv_none fs db _ fp db.customers.length rfl hf
  · exact insert_csv_none fs db _ fp db.orders.length rfl hf
  · exact insert_csv_none fs db _ fp db.reviews.length rfl hf

/-- Claim C6 witness: the missing-file behaviour at a concrete input. -/
theorem C6_witness :
    insert_csv (fun _ => none) emptyDB "categories" "categories.csv" =
      .ok (0, emptyDB, [Ev.print "Warning: categories.csv not found, skipping categories."]) :=
  C6_missing_file (fun _ => none) emptyDB "categories" "categories.csv" (by decide) rfl

/-! ### Claim C10 -/

/-- Claim C10, amended: for every table-name argument outside the five
entities, insert_csv with a present source file raises — a ValueError
"Unknown table" when the initial row-count query succeeds (a table of
that name exists in the store), and the row-count query's own error
when it does not — and inserts no rows; the amendment adds the
file-present proviso because the row count runs before the
file-existence check, whose absent branch returns 0 without raising
(see the counterexample). -/
theorem C10_unknown_table (db : DB) (t : String) (h5 : t ∉ insertionOrder) :
    (∀ nCount, rowCount db t = .ok nCount →
      ∀ (fs : Filesystem) (fp : String) (rows : List Row), fs fp = some rows →
        insert_csv fs db t fp = .error (.valueError ("Unknown table " ++ t))) ∧
    (∀ e, rowCount db t = .error e →
      ∀ (fs : Filesystem) (fp : String), insert_csv fs db t fp = .error e) := by
  simp only [insertionOrder, List.mem_cons, List.not_mem_nil, or_false, not_or] at h5
  obtain ⟨hne1, hne2, hne3, hne4, hne5⟩ := h5
  constructor
  · intro nCount h0 fs fp rows hf
    have hbp : buildParams t rows = .error (.valueError ("Unknown table " ++ t)) := by
      unfold buildParams
      simp [hne1, hne2, hne3, hne4, hne5]
    unfold insert_csv
    simp only [h0, hf, hbp]
  · intro e h0 fs fp
    unfold insert_csv
    simp only [h0]

/-- A store in which a materializer run has left a report_output
table. -/
def c10db : DB := { emptyDB with report_output := some [] }

/-- Claim C10 counterexample: with the table name report_output — not
one of the five entities, but present in the store — and the source
file absent, insert_csv returns an inserted-count of zero with a
warning instead of raising. -/
theorem C10_counterexample :
    insert_csv (fun _ => none) c10db "report_output" "report_output.csv" =
      .ok (0, c10db,
        [Ev.print "Warning: report_output.csv not found, skipping report_output."]) :=
  rfl

/-- The filesystem of the C10 witness: the looked-up file exists. -/
def c10fsW : Filesystem := fun p => if p = "x.csv" then some [] else none

/-- Claim C10 witness: the amended claim at a concrete input. -/
theorem C10_witness :
    insert_csv c10fsW c10db "report_output" "x.csv" =
      .error (.valueError "Unknown table report_output") :=
  (C10_unknown_table c10db "report_output" (by decide)).1 0 rfl c10fsW "x.csv" [] rfl

/-! ### Claim C2 -/

/-- Claim C2: in the materializer, the drop of the previous destination
table strictly precedes the create step (the drop and create events
appear in that order in the trace), and if the create step fails the
destination table report_output is left absent in the persisted store
(the drop is DDL executed in autocommit mode, so it persists) and the
error is surfaced to the caller. -/
theorem C2_create_failure (db : DB) (s : String) (e : PyErr)
    (evalQ : String → DB → Except PyErr (List RRow))
    (h : evalQ (sqlTextOf s) { db with report_output := none } = .error e) :
    RunReport.main true (some s) evalQ db =
      (.error e, { db with report_output := none },
        [Ev.connect, Ev.drop, Ev.create, Ev.close]) ∧
    ({ db with report_output := none } : DB).report_output = none := by
  refine ⟨?_, rfl⟩
  simp [RunReport.main, h]

/-- A query evaluation that always fails, as with malformed SQL or a
reference to a nonexistent source table. -/
def c2evalQ : String → DB → Except PyErr (List RRow) :=
  fun _ _ => .error (.operationalError "no such table: nope")

/-- Claim C2 witness: the failing create at a concrete input. -/
theorem C2_witness :
    RunReport.main true (some "SELECT * FROM nope;") c2evalQ c10db =
      (.error (.operationalError "no such table: nope"),
        { c10db with report_output := none },
        [Ev.connect, Ev.drop, Ev.create, Ev.close]) ∧
    ({ c10db with report_output := none } : DB).report_output = none :=
  C2_create_failure c10db "SELECT * FROM nope;" (.operationalError "no such table: nope")
    c2evalQ rfl

/-! ### Claim C5 -/

/-- Claim C5: on a successful materializer run, the query text has one
trailing semicolon discarded (the query semantics is applied to
sqlTextOf of the raw file text), the previously materialized
report_output table is removed (the result is built from the store with
report_output dropped, whatever it held before), the destination table
is created as exactly the query's result set, and the reported count is
the number of rows in the new destination table. -/
theorem C5_success (db : DB) (s : String) (rs : List RRow)
    (evalQ : String → DB → Except PyErr (List RRow))
    (h : evalQ (sqlTextOf s) { db with report_output := none } = .ok rs) :
    RunReport.main true (some s) evalQ db =
      (.ok (), { db with report_output := some rs },
        [Ev.connect, Ev.drop, Ev.create,
          Ev.print ("Inserted " ++ toString rs.length ++ " rows into report_output"),
          Ev.close]) := by
  simp [RunReport.main, h, rowCount]

/-- A query evaluation keyed to the exact stripped text "SELECT 1",
returning one row; used to exhibit the semicolon discarding. -/
def c5evalQ : String → DB → Except PyErr (List RRow) :=
  fun q _ => if q = "SELECT 1" then .ok [[some "1"]] else .error (.operationalError "bad")

/-- Claim C5 witness: a successful run at a concrete input whose raw
query text "SELECT 1;" only evaluates once the semicolon is
discarded. -/
theorem C5_witness :
    RunReport.main true (some "SELECT 1;") c5evalQ c10db =
      (.ok (), { c10db with report_output := some [[some "1"]] },
        [Ev.connect, Ev.drop, Ev.create,
          Ev.print ("Inserted " ++ toString (1 : Nat) ++ " rows into report_output"),
          Ev.close]) :=
  C5_success c10db "SELECT 1;" [[some "1"]] c5evalQ rfl

/-! ### Claim C7 -/

/-- Claim C7: if the store file is absent, or the query-definition file
is absent, the materializer prints a message and returns without error
and without touching the store — no connect, drop or create appears in
the trace and the store is unchanged. -/
theorem C7_early_exit (dbExists : Bool) (sqlFile : Option String)
    (evalQ : String → DB → Except PyErr (List RRow)) (db : DB)
    (h : dbExists = false ∨ sqlFile = none) :
    ∃ msg, RunReport.main dbExists sqlFile evalQ db = (.ok (), db, [Ev.print msg]) := by
  rcases h with rfl | rfl
  · exact ⟨"Database not found: ecom.db", by simp [RunReport.main]⟩
  · cases dbExists
    · exact ⟨"Database not found: ecom.db", by simp [RunReport.main]⟩
    · exact ⟨"SQL file not found: report.sql", by simp [RunReport.main]⟩

/-- Claim C7 witness: the early exit at a concrete input. -/
theorem C7_witness :
    ∃ msg, RunReport.main false (some "SELECT 1") c5evalQ c10db =
      (.ok (), c10db, [Ev.print msg]) :=
  C7_early_exit false (some "SELECT 1") c5evalQ c10db (.inl rfl)

/-! ### Claim C8 -/

/-- Claim C8: the loader's main entry point ingests the five entities
in exactly the fixed dependency order categories, products, customers,
orders, reviews — on success the reported results list names them in
that order — and prints a per-entity inserted-row count line for each. -/
theorem C8_loader_order (fs : Filesystem) (db : DB) (res : List (String × Int))
    (db1 : DB) (tr : List Ev) (h : InsertData.main fs db = (.ok res, db1, tr)) :
    res.map Prod.fst = ["categories", "products", "customers", "orders", "reviews"] ∧
    ∀ p ∈ res, Ev.print ("- " ++ p.1 ++ ": " ++ toString p.2 ++ " rows inserted") ∈ tr := by
  unfold InsertData.main at h
  rcases hl : InsertData.loaderLoop fs insertionOrder (create_tables db) with ⟨r, db2, evs⟩
  cases r with
  | error e =>
    simp only [hl, Prod.mk.injEq] at h
    exact absurd h.1 (by simp)
  | ok res0 =>
    simp only [hl, Prod.mk.injEq, Except.ok.injEq] at h
    obtain ⟨h1, h2, h3⟩ := h
    subst h1 h2 h3
    constructor
    · exact loaderLoop_names fs insertionOrder (create_tables db) res0 db2 evs hl
    · intro p hp
      have hm : Ev.print ("- " ++ p.1 ++ ": " ++ toString p.2 ++ " rows inserted") ∈
          res0.map (fun q => Ev.print ("- " ++ q.1 ++ ": " ++ toString q.2 ++ " rows inserted")) :=
        List.mem_map_of_mem _ hp
      exact List.mem_append_left _ (List.mem_append_right _ hm)

/-- The results of the C8 witness run on an empty filesystem. -/
def c8res : List (String × Int) :=
  [("categories", 0), ("products", 0), ("customers", 0), ("orders", 0), ("reviews", 0)]

/-- The trace of the C8 witness run on an empty filesystem. -/
def c8tr : List Ev :=
  [Ev.connect,
    Ev.print "Warning: categories.csv not found, skipping categories.",
    Ev.print "Warning: products.csv not found, skipping products.",
    Ev.print "Warning: customers.csv not found, skipping customers.",
    Ev.print "Warning: orders.csv not found, skipping orders.",
    Ev.print "Warning: reviews.csv not found, skipping reviews.",
    Ev.print "Insertion summary:",
    Ev.print "- categories: 0 rows inserted",
    Ev.print "- products: 0 rows inserted",
    Ev.print "- customers: 0 rows inserted",
    Ev.print "- orders: 0 rows inserted",
    Ev.print "- reviews: 0 rows inserted",
    Ev.close]

/-- Claim C8 witness: the order and the reporting at a concrete input. -/
theorem C8_witness :
    c8res.map Prod.fst = ["categories", "products", "customers", "orders", "reviews"] ∧
    ∀ p ∈ c8res, Ev.print ("- " ++ p.1 ++ ": " ++ toString p.2 ++ " rows inserted") ∈ c8tr :=
  C8_loader_order (fun _ => none) emptyDB c8res emptyDB c8tr rfl

/-! ### Claim C9 -/

theorem close_once (l : List Ev) (h : Ev.close ∉ l) :
    (l ++ [Ev.close]).count Ev.close = 1 ∧ (l ++ [Ev.close]).getLast? = some Ev.close := by
  constructor
  · rw [List.count_append, List.count_eq_zero.mpr h]
    rfl
  · exact List.getLast?_concat l

/-- Claim C9: in both utilities, on every execution path that acquires
the store connection — success or raised error — the connection is
released exactly once, as the last event before the entry point returns
or propagates: the loader always connects, and the materializer
connects whenever both files exist. -/
theorem C9_connection_released (fs : Filesystem) (db : DB) (s : String)
    (evalQ : String → DB → Except PyErr (List RRow)) (dbR : DB) :
    ((InsertData.main fs db).2.2.count Ev.close = 1 ∧
      (InsertData.main fs db).2.2.getLast? = some Ev.close) ∧
    ((RunReport.main true (some s) evalQ dbR).2.2.count Ev.close = 1 ∧
      (RunReport.main true (some s) evalQ dbR).2.2.getLast? = some Ev.close) := by
  constructor
  · rcases hl : InsertData.loaderLoop fs insertionOrder (create_tables db) with ⟨r, db2, evs⟩
    have hevs := loaderLoop_evs fs insertionOrder (create_tables db) r db2 evs hl
    have hno : Ev.close ∉ evs := by
      intro hc
      obtain ⟨m, hm⟩ := hevs Ev.close hc
      cases hm
    cases r with
    | error e =>
      have hmain : InsertData.main fs db = (.error e, db2, [Ev.connect] ++ evs ++ [Ev.close]) := by
        unfold InsertData.main
        simp only [hl]
      rw [hmain]
      apply close_once
      intro hc
      rcases List.mem_append.mp hc with h0 | h0
      · cases List.mem_singleton.mp h0
      · exact hno h0
    | ok res =>
      have hmain : InsertData.main fs db = (.ok res, db2,
          [Ev.connect] ++ evs ++ [Ev.print "Insertion summary:"] ++
            res.map (fun p => Ev.print ("- " ++ p.1 ++ ": " ++ toString p.2 ++ " rows inserted")) ++
            [Ev.close]) := by
        unfold InsertData.main
        simp only [hl]
      rw [hmain]
      apply close_once
      intro hc
      rcases List.mem_append.mp hc with h0 | h0
      · rcases List.mem_append.mp h0 with h1 | h1
        · rcases List.mem_append.mp h1 with h2 | h2
          · cases List.mem_singleton.mp h2
          · exact hno h2
        · cases List.mem_singleton.mp h1
      · obtain ⟨p, hp, hq⟩ := List.mem_map.mp h0
        cases hq
  · cases hq : evalQ (sqlTextOf s) { dbR with report_output := none } with
    | error e =>
      have hmain : RunReport.main true (some s) evalQ dbR =
          (.error e, { dbR with report_output := none },
            [Ev.connect, Ev.drop, Ev.create, Ev.close]) := by
        simp [RunReport.main, hq]
      rw [hmain]
      refine ⟨?_, rfl⟩
      show List.count Ev.close [Ev.connect, Ev.drop, Ev.create, Ev.close] = 1
      decide
    | ok rs =>
      have hmain : RunReport.main true (some s) evalQ dbR =
          (.ok (), { dbR with report_output := some rs },
            [Ev.connect, Ev.drop, Ev.create,
              Ev.print ("Inserted " ++ toString rs.length ++ " rows into report_output"),
              Ev.close]) := by
        simp [RunReport.main, hq, rowCount]
      rw [hmain]
      constructor
      · simp [List.count_cons]
      · rfl
